import Mathlib

/-!
Shallow embedding of the movie-metadata sync and review core of the
`movie_app_auth0_graphql` backend.

Data model: `backend/prisma/migrations/20260221095751_init/migration.sql`
(tables `users`, `movies`, `movie_reviews`, their unique indexes and foreign
keys). Repository layer: `backend/src/repositories/movie.repository.ts` and
`backend/src/repositories/review.repository.ts` (one-line Prisma wrappers;
the storage-level constraints of the migration are modelled as part of the
repository write operations, since Prisma surfaces them as errors of the
corresponding constraint). Error constructors: `src/utils/errors.ts`.

The service layer (`movie.service.ts`, `review.service.ts`) is not part of
the repository snapshot; only Plan 04 (`plans/04-services.md`) and the spec
describe it. Those definitions are marked `Modelled from the spec:` below.

Timestamps are naturals (milliseconds since epoch, as JavaScript dates);
floating-point columns (`vote_average`, `popularity`, `AVG(rating)`) are
modelled as rationals; a SQL `DATE` is modelled by its string representation.
-/

namespace MovieApp

/-- One row of the `movies` table (migration.sql): TMDB-assigned integer id,
`synced_at` defaults to the current timestamp on insert. -/
structure Movie where
  id : Nat
  title : String
  overview : String
  posterPath : Option String
  backdropPath : Option String
  releaseDate : Option String
  voteAverage : Rat
  popularity : Rat
  genres : List String
  syncedAt : Nat
deriving DecidableEq

/-- One row of the `users` table (migration.sql). -/
structure User where
  id : String
  auth0Id : String
  email : String
  username : Option String
  avatarUrl : Option String
  createdAt : Nat
  updatedAt : Nat
deriving DecidableEq

/-- One row of the `movie_reviews` table (migration.sql): `rating` is a bare
SQL INTEGER (no CHECK constraint), `content` nullable. -/
structure Review where
  id : String
  rating : Int
  content : Option String
  userId : String
  movieId : Nat
  createdAt : Nat
  updatedAt : Nat
deriving DecidableEq

/-- The `movies` table contents — the spec's MetadataStore. -/
abbrev MetadataStore := List Movie

/-- Full database state: the three tables of migration.sql. -/
structure Db where
  users : List User
  movies : List Movie
  reviews : List Review
deriving DecidableEq

/-- Storage-level failures surfaced by Prisma, named by the violated
constraint of migration.sql. -/
inductive DbError where
  | uniqueViolation (constraintName : String)
  | foreignKeyViolation (constraintName : String)
deriving DecidableEq

/-- `src/utils/errors.ts`: each error helper returns a GraphQLError carrying
a message and an `extensions.code` string. -/
structure AppError where
  message : String
  code : String
deriving DecidableEq

/-- `NotFoundError` of errors.ts (`extensions.code: "NOT_FOUND"`). -/
def NotFoundError (message : String) : AppError :=
  ⟨message, "NOT_FOUND"⟩

/-- `UnauthorizedError` of errors.ts (`extensions.code: "UNAUTHORIZED"`). -/
def UnauthorizedError (message : String) : AppError :=
  ⟨message, "UNAUTHORIZED"⟩

/-- `ForbiddenError` of errors.ts (`extensions.code: "FORBIDDEN"`). -/
def ForbiddenError (message : String) : AppError :=
  ⟨message, "FORBIDDEN"⟩

/-- `ValidationError` of errors.ts (`extensions.code: "VALIDATION_ERROR"`). -/
def ValidationError (message : String) : AppError :=
  ⟨message, "VALIDATION_ERROR"⟩

/-- An outcome a service call can fail with: a thrown application error, or a
storage error propagated unchanged from the repository layer. -/
inductive SvcError where
  | app (e : AppError)
  | store (e : DbError)
deriving DecidableEq

/-- TMDB genre object of the detail endpoint (`src/types/tmdb.types.ts`,
per Plan 04): a pair of numeric id and name. -/
structure TmdbGenre where
  id : Nat
  name : String
deriving DecidableEq

/-- TMDB detail-endpoint response shape (`TmdbMovieDetail` in Plan 04):
snake_case wire fields, structured `genres`, numeric fields optional on the
wire. `release_date` is a plain string, possibly blank. -/
structure TmdbMovieDetail where
  id : Nat
  title : String
  overview : String
  poster_path : Option String
  backdrop_path : Option String
  release_date : String
  vote_average : Option Rat
  popularity : Option Rat
  genres : List TmdbGenre
deriving DecidableEq

/-- TMDB list-result shape (`TmdbMovie` in Plan 04): like the detail shape
but with bare `genre_ids`. -/
structure TmdbMovie where
  id : Nat
  title : String
  overview : String
  poster_path : Option String
  backdrop_path : Option String
  release_date : String
  vote_average : Option Rat
  popularity : Option Rat
  genre_ids : List Nat
deriving DecidableEq

/-- TMDB paginated list response (`TmdbPaginatedResponse` in Plan 04). -/
structure TmdbPaginatedResponse where
  page : Nat
  results : List TmdbMovie
  total_pages : Nat
  total_results : Nat
deriving DecidableEq

/-- The TMDB client (`src/services/tmdb.service.ts`, per Plan 04), as a
record of provider calls. `none` models any provider failure: network error,
non-2xx status, or the 5-second timeout — tmdb.service throws in each case. -/
structure TmdbService where
  getMovie : Nat → Option TmdbMovieDetail
  getTrending : Nat → Option TmdbPaginatedResponse
  getPopular : Nat → Option TmdbPaginatedResponse
  searchMovies : String → Nat → Option TmdbPaginatedResponse

/-- The movie fields supplied to an upsert: `Prisma.MovieCreateInput` minus
`id` (and minus `syncedAt`, which the caller never supplies — it is the DB
insert default or set by the update branch). -/
structure MovieData where
  title : String
  overview : String
  posterPath : Option String
  backdropPath : Option String
  releaseDate : Option String
  voteAverage : Rat
  popularity : Rat
  genres : List String
deriving DecidableEq

/-- The row an upsert at time `now` produces from `MovieData`: on create the
DB default sets `synced_at = CURRENT_TIMESTAMP`; on update the repository
passes `syncedAt: new Date()`. Either way `syncedAt = now`. -/
def MovieData.toRow (d : MovieData) (id : Nat) (now : Nat) : Movie :=
  ⟨id, d.title, d.overview, d.posterPath, d.backdropPath, d.releaseDate,
    d.voteAverage, d.popularity, d.genres, now⟩

namespace movieRepository

/-- `movieRepository.findById`: `db.movie.findUnique({ where: { id } })`. -/
def findById (store : MetadataStore) (id : Nat) : Option Movie :=
  store.find? (fun m => decide (m.id = id))

/-- `movieRepository.upsert`: `db.movie.upsert` — create `{ id, ...data }`
if no row with this id exists (syncedAt from the DB default, i.e. now),
else overwrite all fields with `{ ...data, syncedAt: new Date() }`.
Returns the upserted row and the new table contents. -/
def upsert (store : MetadataStore) (id : Nat) (data : MovieData) (now : Nat) :
    Movie × MetadataStore :=
  let m := data.toRow id now
  match store.find? (fun x => decide (x.id = id)) with
  | some _ => (m, store.map (fun x => if x.id = id then m else x))
  | none => (m, store ++ [m])

end movieRepository

namespace reviewRepository

/-- `reviewRepository.findById`: `db.movieReview.findUnique({ where: { id } })`. -/
def findById (db : Db) (id : String) : Option Review :=
  db.reviews.find? (fun r => decide (r.id = id))

/-- `reviewRepository.findByUserAndMovie`: lookup by the composite unique key
`userId_movieId`. -/
def findByUserAndMovie (db : Db) (userId : String) (movieId : Nat) : Option Review :=
  db.reviews.find? (fun r => decide (r.userId = userId) && decide (r.movieId = movieId))

/-- Newest-first order used by `orderBy: { createdAt: 'desc' }`. -/
def newestFirst (a b : Review) : Prop :=
  b.createdAt ≤ a.createdAt

instance : DecidableRel newestFirst :=
  fun a b => Nat.decLe b.createdAt a.createdAt

instance : IsTotal Review newestFirst :=
  ⟨fun a b => Nat.le_total b.createdAt a.createdAt⟩

instance : IsTrans Review newestFirst :=
  ⟨fun _ _ _ h h' => Nat.le_trans h' h⟩

/-- All reviews of one movie, in table order (the `where: { movieId }`
filter of `findByMovie`, before sorting and pagination). -/
def reviewsOfMovie (db : Db) (movieId : Nat) : List Review :=
  db.reviews.filter (fun r => decide (r.movieId = movieId))

/-- The movie's reviews sorted newest-first (`orderBy: { createdAt: 'desc' }`). -/
def sortedReviewsOfMovie (db : Db) (movieId : Nat) : List Review :=
  (reviewsOfMovie db movieId).insertionSort newestFirst

/-- `reviewRepository.findByMovie`: filter by movie, order newest-first,
`skip: (page - 1) * pageSize, take: pageSize`. -/
def findByMovie (db : Db) (movieId : Nat) (page : Nat) (pageSize : Nat) : List Review :=
  (((sortedReviewsOfMovie db movieId).drop ((page - 1) * pageSize)).take pageSize)

/-- `reviewRepository.averageRating`: `aggregate` of `_avg: { rating: true }`
over `where: { movieId }` — the arithmetic mean of all the movie's ratings,
`null` when the movie has no reviews. -/
def averageRating (db : Db) (movieId : Nat) : Option Rat :=
  let rs := reviewsOfMovie db movieId
  if rs.isEmpty then none
  else some ((rs.map (fun r => (r.rating : Rat))).sum / (rs.length : Rat))

/-- `reviewRepository.create`: `db.movieReview.create({ data })` against the
constraints of migration.sql — the two foreign keys
(`movie_reviews_user_id_fkey`, `movie_reviews_movie_id_fkey`), the primary
key, and the composite unique index `movie_reviews_user_id_movie_id_key`.
Succeeds by appending the row; fails with the violated constraint. -/
def create (db : Db) (r : Review) : Except DbError Db :=
  if (db.users.find? (fun u => decide (u.id = r.userId))).isNone then
    .error (.foreignKeyViolation "movie_reviews_user_id_fkey")
  else if (movieRepository.findById db.movies r.movieId).isNone then
    .error (.foreignKeyViolation "movie_reviews_movie_id_fkey")
  else if db.reviews.any (fun x => decide (x.id = r.id)) then
    .error (.uniqueViolation "movie_reviews_pkey")
  else if db.reviews.any (fun x => decide (x.userId = r.userId) && decide (x.movieId = r.movieId)) then
    .error (.uniqueViolation "movie_reviews_user_id_movie_id_key")
  else
    .ok { db with reviews := db.reviews ++ [r] }

end reviewRepository

/-- A partial-update payload for a review: each field is either supplied or
absent (`content` may be supplied as null, hence the nested option). -/
structure ReviewPatch where
  rating : Option Rat
  content : Option (Option String)
deriving DecidableEq

/-- Applying a partial update to a stored review: supplied fields overwrite,
absent fields are left unchanged, `updatedAt` is refreshed (the Prisma
`@updatedAt` column). A supplied rating has already passed the integer
check, so its integer value `q.num` is stored. -/
def applyPatch (r : Review) (p : ReviewPatch) (now : Nat) : Review :=
  { r with
    rating := match p.rating with
      | some q => q.num
      | none => r.rating,
    content := p.content.getD r.content,
    updatedAt := now }

namespace reviewRepository

/-- `reviewRepository.update`: `db.movieReview.update({ where: { id }, data })`
— overwrite the supplied fields of the row with this id. -/
def update (db : Db) (id : String) (p : ReviewPatch) (now : Nat) : Db :=
  { db with reviews := db.reviews.map (fun x => if x.id = id then applyPatch x p now else x) }

/-- `reviewRepository.delete`: `db.movieReview.delete({ where: { id } })`. -/
def del (db : Db) (id : String) : Db :=
  { db with reviews := db.reviews.filter (fun x => !decide (x.id = id)) }

end reviewRepository

/-- The 24-hour movie-detail freshness window, in milliseconds. -/
def freshnessWindowMs : Nat := 24 * 60 * 60 * 1000

/-- Modelled from the spec: `movie.service.ts` is absent from the snapshot
(Plan 04 §3 describes it). `mapTmdbDetailToMovie` — poster/backdrop map 1:1,
the structured genre list is flattened to its name strings, a blank
release-date string becomes absent, numeric fields default to 0 if absent. -/
def mapTmdbDetailToMovie (d : TmdbMovieDetail) : MovieData :=
  { title := d.title,
    overview := d.overview,
    posterPath := d.poster_path,
    backdropPath := d.backdrop_path,
    releaseDate := if d.release_date = "" then none else some d.release_date,
    voteAverage := d.vote_average.getD 0,
    popularity := d.popularity.getD 0,
    genres := d.genres.map (fun g => g.name) }

/-- What one `movieService.getMovie` call produces: its result, the store it
leaves behind, and how many provider detail calls it made. -/
structure GetMovieOutcome where
  result : Except AppError Movie
  store : MetadataStore
  providerCalls : Nat

namespace movieService

/-- Modelled from the spec: `movie.service.ts` is absent from the snapshot
(spec §4.1 and Plan 04 §3 describe it). `getMovie(id)` — return the stored
row when fresh (`now − syncedAt < 24h`) without calling the provider;
otherwise fetch the detail from TMDB and upsert on success; on provider
failure return the stale row unchanged when one exists, else fail with
`NotFoundError`. -/
def getMovie (tmdb : TmdbService) (store : MetadataStore) (id : Nat) (now : Nat) :
    GetMovieOutcome :=
  match movieRepository.findById store id with
  | some m =>
    if now - m.syncedAt < freshnessWindowMs then
      ⟨.ok m, store, 0⟩
    else
      match tmdb.getMovie id with
      | some d =>
        let u := movieRepository.upsert store id (mapTmdbDetailToMovie d) now
        ⟨.ok u.1, u.2, 1⟩
      | none => ⟨.ok m, store, 1⟩
  | none =>
    match tmdb.getMovie id with
    | some d =>
      let u := movieRepository.upsert store id (mapTmdbDetailToMovie d) now
      ⟨.ok u.1, u.2, 1⟩
    | none => ⟨.error (NotFoundError "Movie not found"), store, 1⟩

/-- Modelled from the spec: `movieService.getTrending` is a pass-through to
`tmdb.getTrending` — it never touches the MetadataStore. -/
def getTrending (tmdb : TmdbService) (store : MetadataStore) (page : Nat) :
    Option TmdbPaginatedResponse × MetadataStore :=
  (tmdb.getTrending page, store)

/-- Modelled from the spec: `movieService.getPopular` is a pass-through to
`tmdb.getPopular` — it never touches the MetadataStore. -/
def getPopular (tmdb : TmdbService) (store : MetadataStore) (page : Nat) :
    Option TmdbPaginatedResponse × MetadataStore :=
  (tmdb.getPopular page, store)

/-- Modelled from the spec: `movieService.searchMovies` is a pass-through to
`tmdb.searchMovies` — it never touches the MetadataStore. -/
def searchMovies (tmdb : TmdbService) (store : MetadataStore) (query : String) (page : Nat) :
    Option TmdbPaginatedResponse × MetadataStore :=
  (tmdb.searchMovies query page, store)

end movieService

/-- One call to a list endpoint of the movie service. -/
inductive ListOp where
  | trending (page : Nat)
  | popular (page : Nat)
  | search (query : String) (page : Nat)

/-- Run one list-endpoint call, keeping only the store it leaves behind. -/
def runListOp (tmdb : TmdbService) (store : MetadataStore) (op : ListOp) : MetadataStore :=
  match op with
  | .trending page => (movieService.getTrending tmdb store page).2
  | .popular page => (movieService.getPopular tmdb store page).2
  | .search query page => (movieService.searchMovies tmdb store query page).2

/-- Run a sequence of list-endpoint calls left to right. -/
def runListOps (tmdb : TmdbService) (store : MetadataStore) (ops : List ListOp) : MetadataStore :=
  ops.foldl (runListOp tmdb) store

/-- Modelled from the spec: `review.service.ts` is absent from the snapshot
(Plan 04 §5 describes it). The rating check of createReview/updateReview:
the caller-supplied number must be an integer between 1 and 10 inclusive. -/
def isValidRating (q : Rat) : Bool :=
  decide (q.den = 1) && decide ((1 : Rat) ≤ q) && decide (q ≤ (10 : Rat))

namespace reviewService

/-- Modelled from the spec: `review.service.ts` is absent from the snapshot
(spec §4.2 and Plan 04 §5 describe it). `createReview(userId, movieId,
{ rating, content? })` — validate the rating, reject an already-reviewed
(user, movie) pair, then persist through the repository. `freshId` is the
generated uuid of the new row and `now` the call's timestamp. -/
def createReview (db : Db) (userId : String) (movieId : Nat) (rating : Rat)
    (content : Option String) (freshId : String) (now : Nat) :
    Except SvcError Review × Db :=
  if isValidRating rating then
    match reviewRepository.findByUserAndMovie db userId movieId with
    | some _ => (.error (.app (ValidationError "You have already reviewed this movie")), db)
    | none =>
      let r : Review := ⟨freshId, rating.num, content, userId, movieId, now, now⟩
      match reviewRepository.create db r with
      | .ok db' => (.ok r, db')
      | .error e => (.error (.store e), db)
  else
    (.error (.app (ValidationError "Rating must be an integer between 1 and 10")), db)

/-- Modelled from the spec: `review.service.ts` is absent from the snapshot
(spec §4.2 and Plan 04 §5 describe it). `updateReview(reviewId, userId,
{ rating?, content? })` — NotFound when the id resolves to no review,
Forbidden when the stored owner differs from the caller, Validation when a
supplied rating fails the integer-1..10 check; otherwise apply the supplied
fields through the repository. -/
def updateReview (db : Db) (reviewId : String) (userId : String) (p : ReviewPatch)
    (now : Nat) : Except SvcError Review × Db :=
  match reviewRepository.findById db reviewId with
  | none => (.error (.app (NotFoundError "Review not found")), db)
  | some r =>
    if r.userId = userId then
      match p.rating with
      | some q =>
        if isValidRating q then
          (.ok (applyPatch r p now), reviewRepository.update db reviewId p now)
        else
          (.error (.app (ValidationError "Rating must be an integer between 1 and 10")), db)
      | none => (.ok (applyPatch r p now), reviewRepository.update db reviewId p now)
    else
      (.error (.app (ForbiddenError "You can only edit your own reviews")), db)

/-- Modelled from the spec: `review.service.ts` is absent from the snapshot
(spec §4.2 and Plan 04 §5 describe it). `deleteReview(reviewId, userId)` —
the same lookup and ownership checks as updateReview, then delete through
the repository, returning the deleted review. -/
def deleteReview (db : Db) (reviewId : String) (userId : String) :
    Except SvcError Review × Db :=
  match reviewRepository.findById db reviewId with
  | none => (.error (.app (NotFoundError "Review not found")), db)
  | some r =>
    if r.userId = userId then
      (.ok r, reviewRepository.del db reviewId)
    else
      (.error (.app (ForbiddenError "You can only delete your own reviews")), db)

/-- The shape `getMovieReviews` returns: one page of reviews plus the
movie-wide average rating. -/
structure MovieReviewsPage where
  reviews : List Review
  averageRating : Option Rat
deriving DecidableEq

/-- Default page number of the pagination convention (TS default `page = 1`). -/
def defaultPage : Nat := 1

/-- Default page size of the pagination convention (TS default `pageSize = 20`). -/
def defaultPageSize : Nat := 20

/-- Modelled from the spec: `review.service.ts` is absent from the snapshot
(spec §4.2 and Plan 04 §5 describe it). `getMovieReviews(movieId, page?,
pageSize?)` — the paginated newest-first page from `findByMovie` together
with `averageRating`, fetched independently. -/
def getMovieReviews (db : Db) (movieId : Nat) (page : Nat) (pageSize : Nat) :
    MovieReviewsPage :=
  ⟨reviewRepository.findByMovie db movieId page pageSize,
    reviewRepository.averageRating db movieId⟩

/-- `getMovieReviews` with both pagination arguments left to their defaults. -/
def getMovieReviewsDefault (db : Db) (movieId : Nat) : MovieReviewsPage :=
  getMovieReviews db movieId defaultPage defaultPageSize

end reviewService

/-- Review rows agree on the composite key of the unique index
`movie_reviews_user_id_movie_id_key`. -/
def samePair (a b : Review) : Prop :=
  a.userId = b.userId ∧ a.movieId = b.movieId

/-- The uniqueness invariant of `movie_reviews_user_id_movie_id_key`:
no two review rows share a (userId, movieId) pair. -/
def PairUnique (l : List Review) : Prop :=
  l.Pairwise (fun a b => ¬ samePair a b)

/-- Whether a service outcome is a Validation failure (a thrown
`ValidationError`, whatever its message). -/
def isValidationFailure : Except SvcError Review → Bool
  | .error (.app e) => decide (e.code = "VALIDATION_ERROR")
  | _ => false

/-! ### Concrete fixtures for witnesses and counterexamples -/

/-- A concrete stored movie row (TMDB id 550), synced at timestamp 1000000. -/
def fightClub : Movie :=
  ⟨550, "Fight Club", "An insomniac office worker and a soap maker.",
    some "/poster550.jpg", some "/backdrop550.jpg", some "1999-10-15",
    8, 61, ["Drama"], 1000000⟩

/-- A provider on which every call fails (network error / non-2xx / timeout). -/
def noProvider : TmdbService :=
  ⟨fun _ => none, fun _ => none, fun _ => none, fun _ _ => none⟩

/-- A concrete TMDB detail response for id 550. -/
def detail550 : TmdbMovieDetail :=
  ⟨550, "Fight Club", "An insomniac office worker and a soap maker.",
    some "/poster550.jpg", some "/backdrop550.jpg", "1999-10-15",
    some 8, some 61, [⟨18, "Drama"⟩]⟩

/-- A provider whose detail endpoint answers id 550 with `detail550` and
fails otherwise; list endpoints fail. -/
def detailProvider : TmdbService :=
  ⟨fun id => if id = 550 then some detail550 else none,
    fun _ => none, fun _ => none, fun _ _ => none⟩

/-- A concrete user row. -/
def alice : User :=
  ⟨"user-1", "auth0|alice", "alice@test.com", some "alice", none, 500, 500⟩

/-- A second concrete user row. -/
def bob : User :=
  ⟨"user-2", "auth0|bob", "bob@test.com", none, none, 600, 600⟩

/-- A concrete stored review: alice rated movie 550 with 8. -/
def aliceReview : Review :=
  ⟨"rev-1", 8, some "Great movie!", "user-1", 550, 2000, 2000⟩

/-- A database holding alice, bob, movie 550 and alice's review of it. -/
def db1 : Db :=
  ⟨[alice, bob], [fightClub], [aliceReview]⟩

/-- A database holding alice and bob but no movie and no review. -/
def dbNoMovies : Db :=
  ⟨[alice, bob], [], []⟩

/-! ### Claim theorems -/

/-- Claim C1: for every movie id with a locally stored record whose
`syncedAt` satisfies `now − syncedAt < 24h`, `getMovie(id)` returns that
stored record verbatim, leaves the store unchanged, and makes no call to
the external metadata provider. -/
theorem getMovie_fresh_hit_no_provider_call (tmdb : TmdbService) (store : MetadataStore)
    (id now : Nat) (m : Movie) (hfind : movieRepository.findById store id = some m)
    (hfresh : now - m.syncedAt < freshnessWindowMs) :
    movieService.getMovie tmdb store id now = ⟨.ok m, store, 0⟩ := by
  unfold movieService.getMovie
  rw [hfind]
  simp [hfresh]

/-- Concrete instance of C1: a record synced 3600000 ms ago is served from
the store with zero provider calls. -/
theorem getMovie_fresh_hit_no_provider_call_witness :
    movieRepository.findById [fightClub] 550 = some fightClub ∧
    (4600000 : Nat) - fightClub.syncedAt < freshnessWindowMs ∧
    movieService.getMovie noProvider [fightClub] 550 4600000 = ⟨.ok fightClub, [fightClub], 0⟩ :=
  ⟨by decide, by decide,
    getMovie_fresh_hit_no_provider_call noProvider [fightClub] 550 4600000 fightClub
      (by decide) (by decide)⟩

/-- Both branches of an upsert hand back the row built from the supplied
fields at time `now`. -/
theorem upsert_fst (store : MetadataStore) (id : Nat) (d : MovieData) (now : Nat) :
    (movieRepository.upsert store id d now).1 = d.toRow id now := by
  unfold movieRepository.upsert
  cases store.find? (fun x => decide (x.id = id)) <;> rfl

/-- Replacing every row of a given id by a row `m` of that id keeps `m`
findable, provided some row of that id was present. -/
theorem find?_map_replace (l : List Movie) (id : Nat) (m : Movie) (hm : m.id = id)
    (h : (l.find? (fun x => decide (x.id = id))).isSome) :
    (l.map (fun x => if x.id = id then m else x)).find? (fun x => decide (x.id = id))
      = some m := by
  induction l with
  | nil => simp at h
  | cons a l ih =>
    by_cases ha : a.id = id
    · simp [List.find?_cons, ha, hm]
    · have h' : (List.find? (fun x => decide (x.id = id)) l).isSome := by
        simpa [List.find?_cons, ha] using h
      simpa [List.find?_cons, ha] using ih h'

/-- After `upsert store id d now`, looking the id up returns exactly the
upserted row. -/
theorem findById_upsert (store : MetadataStore) (id : Nat) (d : MovieData) (now : Nat) :
    movieRepository.findById (movieRepository.upsert store id d now).2 id
      = some (d.toRow id now) := by
  unfold movieRepository.upsert movieRepository.findById
  cases hfind : store.find? (fun x => decide (x.id = id)) with
  | none =>
    simp only
    rw [List.find?_append, hfind]
    simp [MovieData.toRow]
  | some x =>
    simp only
    exact find?_map_replace store id (d.toRow id now) rfl (by rw [hfind]; rfl)

/-- Claim C2: for every movie id whose local record is absent or stale
(`now − syncedAt ≥ 24h`), when the provider's detail call succeeds,
`getMovie(id)` maps the provider response into the local Movie shape,
upserts it (creating the row if absent, else overwriting all fields) with
`syncedAt` set to the current time, makes exactly one provider call, and
returns the upserted record — which the store then holds under that id. -/
theorem getMovie_stale_or_missing_refreshes (tmdb : TmdbService) (store : MetadataStore)
    (id now : Nat) (d : TmdbMovieDetail)
    (hstale : movieRepository.findById store id = none ∨
      ∃ m, movieRepository.findById store id = some m ∧
        freshnessWindowMs ≤ now - m.syncedAt)
    (hprov : tmdb.getMovie id = some d) :
    movieService.getMovie tmdb store id now =
      ⟨.ok ((mapTmdbDetailToMovie d).toRow id now),
        (movieRepository.upsert store id (mapTmdbDetailToMovie d) now).2, 1⟩ ∧
    ((mapTmdbDetailToMovie d).toRow id now).syncedAt = now ∧
    movieRepository.findById (movieRepository.upsert store id (mapTmdbDetailToMovie d) now).2 id
      = some ((mapTmdbDetailToMovie d).toRow id now) := by
  refine ⟨?_, rfl, findById_upsert store id (mapTmdbDetailToMovie d) now⟩
  unfold movieService.getMovie
  rcases hstale with hnone | ⟨m, hm, hst⟩
  · simp only [hnone, hprov]
    rw [upsert_fst]
  · have hlt : ¬ (now - m.syncedAt < freshnessWindowMs) := not_lt.mpr hst
    simp only [hm, if_neg hlt, hprov]
    rw [upsert_fst]

/-- Concrete instance of C2: a record synced 25 hours and 17 minutes before
`now` is stale, so the provider is called once and the row is overwritten
with `syncedAt = now`. -/
theorem getMovie_stale_or_missing_refreshes_witness :
    freshnessWindowMs ≤ (92000000 : Nat) - fightClub.syncedAt ∧
    detailProvider.getMovie 550 = some detail550 ∧
    movieService.getMovie detailProvider [fightClub] 550 92000000 =
      ⟨.ok ((mapTmdbDetailToMovie detail550).toRow 550 92000000),
        (movieRepository.upsert [fightClub] 550 (mapTmdbDetailToMovie detail550) 92000000).2, 1⟩ ∧
    ((mapTmdbDetailToMovie detail550).toRow 550 92000000).syncedAt = 92000000 :=
  ⟨by decide, rfl,
    (getMovie_stale_or_missing_refreshes detailProvider [fightClub] 550 92000000 detail550
      (Or.inr ⟨fightClub, by decide, by decide⟩) rfl).1,
    (getMovie_stale_or_missing_refreshes detailProvider [fightClub] 550 92000000 detail550
      (Or.inr ⟨fightClub, by decide, by decide⟩) rfl).2.1⟩

/-- Claim C3: when the provider's detail call fails, `getMovie(id)` leaves
the store unchanged in every case; it returns the local record unchanged
when one exists, and fails with NotFound when none exists. -/
theorem getMovie_provider_failure (tmdb : TmdbService) (store : MetadataStore)
    (id now : Nat) (hfail : tmdb.getMovie id = none) :
    (movieService.getMovie tmdb store id now).store = store ∧
    (∀ m, movieRepository.findById store id = some m →
      (movieService.getMovie tmdb store id now).result = .ok m) ∧
    (movieRepository.findById store id = none →
      (movieService.getMovie tmdb store id now).result = .error (NotFoundError "Movie not found")) := by
  unfold movieService.getMovie
  cases hfind : movieRepository.findById store id with
  | some m =>
    by_cases hf : now - m.syncedAt < freshnessWindowMs
    · simp [hfind, hf]
    · simp [hfind, hf, hfail]
  | none =>
    simp [hfind, hfail]

/-- Concrete instance of C3: with a stale stored record and a failing
provider, the record is returned unchanged and the store is untouched. -/
theorem getMovie_provider_failure_witness :
    noProvider.getMovie 550 = none ∧
    (movieService.getMovie noProvider [fightClub] 550 999999999).store = [fightClub] ∧
    (movieService.getMovie noProvider [fightClub] 550 999999999).result = .ok fightClub :=
  ⟨rfl,
    (getMovie_provider_failure noProvider [fightClub] 550 999999999 rfl).1,
    (getMovie_provider_failure noProvider [fightClub] 550 999999999 rfl).2.1 fightClub (by decide)⟩

/-- Claim C9: no sequence of `getTrending`, `getPopular`, `searchMovies`
calls creates or modifies any Movie row — the MetadataStore after running
any such sequence is exactly the store before it, and each individual list
endpoint returns the store unchanged. -/
theorem list_endpoints_never_persist (tmdb : TmdbService) (ops : List ListOp)
    (store : MetadataStore) :
    runListOps tmdb store ops = store ∧
    (∀ page, (movieService.getTrending tmdb store page).2 = store) ∧
    (∀ page, (movieService.getPopular tmdb store page).2 = store) ∧
    (∀ query page, (movieService.searchMovies tmdb store query page).2 = store) := by
  refine ⟨?_, fun _ => rfl, fun _ => rfl, fun _ _ => rfl⟩
  induction ops generalizing store with
  | nil => rfl
  | cons op ops ih =>
    have hop : runListOp tmdb store op = store := by cases op <;> rfl
    calc runListOps tmdb store (op :: ops)
        = runListOps tmdb (runListOp tmdb store op) ops := rfl
      _ = runListOps tmdb store ops := by rw [hop]
      _ = store := ih store

/-- The number 7.5 as a rational (the fractional rating of the spec's
rating-bounds test). -/
def sevenPointFive : Rat := Rat.mk' 15 2 (by decide) (by decide)

/-- Claim C6: a rating that is not an integer in [1,10] makes createReview
fail with Validation before any persistence (the store is returned
unchanged), and makes updateReview on an owned, existing review fail with
Validation likewise; the boundary values 1 and 10 pass the rating check
while 0, 11 and 7.5 fail it. -/
theorem rating_validation (db : Db) :
    (∀ userId movieId rating content freshId now, isValidRating rating = false →
      reviewService.createReview db userId movieId rating content freshId now =
        (.error (.app (ValidationError "Rating must be an integer between 1 and 10")), db)) ∧
    (∀ reviewId userId p now r q, reviewRepository.findById db reviewId = some r →
      r.userId = userId → p.rating = some q → isValidRating q = false →
      reviewService.updateReview db reviewId userId p now =
        (.error (.app (ValidationError "Rating must be an integer between 1 and 10")), db)) ∧
    isValidRating 1 = true ∧ isValidRating 10 = true ∧
    isValidRating 0 = false ∧ isValidRating 11 = false ∧
    isValidRating sevenPointFive = false := by
  refine ⟨?_, ?_, by decide, by decide, by decide, by decide, by decide⟩
  · intro userId movieId rating content freshId now h
    simp [reviewService.createReview, h]
  · intro reviewId userId p now r q hr huid hq h
    simp [reviewService.updateReview, hr, huid, hq, h]

/-- Concrete instance of C6: rating 0 is rejected with Validation and the
database is untouched. -/
theorem rating_validation_witness :
    isValidRating 0 = false ∧
    reviewService.createReview db1 "user-2" 550 0 none "rev-2" 5000 =
      (.error (.app (ValidationError "Rating must be an integer between 1 and 10")), db1) :=
  ⟨by decide, (rating_validation db1).1 "user-2" 550 0 none "rev-2" 5000 (by decide)⟩

/-- Claim C7: updateReview and deleteReview fail with NotFound when the
review id resolves to nothing, and with Forbidden when the stored owner
differs from the caller — for any payload — and in each failure case the
database is returned unchanged. -/
theorem review_ownership_checks (db : Db) (reviewId userId : String) (p : ReviewPatch)
    (now : Nat) :
    (reviewRepository.findById db reviewId = none →
      reviewService.updateReview db reviewId userId p now =
        (.error (.app (NotFoundError "Review not found")), db) ∧
      reviewService.deleteReview db reviewId userId =
        (.error (.app (NotFoundError "Review not found")), db)) ∧
    (∀ r, reviewRepository.findById db reviewId = some r → r.userId ≠ userId →
      reviewService.updateReview db reviewId userId p now =
        (.error (.app (ForbiddenError "You can only edit your own reviews")), db) ∧
      reviewService.deleteReview db reviewId userId =
        (.error (.app (ForbiddenError "You can only delete your own reviews")), db)) := by
  constructor
  · intro h
    constructor
    · simp [reviewService.updateReview, h]
    · simp [reviewService.deleteReview, h]
  · intro r hr hne
    constructor
    · simp [reviewService.updateReview, hr, hne]
    · simp [reviewService.deleteReview, hr, hne]

/-- Concrete instance of C7: bob can neither update nor delete alice's
review — both fail with Forbidden and leave the database unchanged. -/
theorem review_ownership_checks_witness :
    reviewRepository.findById db1 "rev-1" = some aliceReview ∧
    aliceReview.userId ≠ "user-2" ∧
    reviewService.updateReview db1 "rev-1" "user-2" ⟨some 3, none⟩ 6000 =
      (.error (.app (ForbiddenError "You can only edit your own reviews")), db1) ∧
    reviewService.deleteReview db1 "rev-1" "user-2" =
      (.error (.app (ForbiddenError "You can only delete your own reviews")), db1) :=
  ⟨by decide, by decide,
    ((review_ownership_checks db1 "rev-1" "user-2" ⟨some 3, none⟩ 6000).2 aliceReview
      (by decide) (by decide)).1,
    ((review_ownership_checks db1 "rev-1" "user-2" ⟨some 3, none⟩ 6000).2 aliceReview
      (by decide) (by decide)).2⟩

/-- A successful storage-level insert appends the row, and only happens
when no stored row shares its (userId, movieId) pair. -/
theorem create_ok_shape (db : Db) (r : Review) (db' : Db)
    (h : reviewRepository.create db r = .ok db') :
    db'.reviews = db.reviews ++ [r] ∧
    ∀ x ∈ db.reviews, ¬ samePair x r := by
  unfold reviewRepository.create at h
  split at h
  · simp at h
  · split at h
    · simp at h
    · split at h
      · simp at h
      · split at h
        · simp at h
        · rename_i hpair
          injection h with h
          subst h
          refine ⟨rfl, ?_⟩
          intro x hx hsame
          exact hpair (List.any_eq_true.mpr
            ⟨x, hx, by simp [samePair] at hsame; simp [hsame.1, hsame.2]⟩)

/-- `applyPatch` never changes the (userId, movieId) key of a review. -/
theorem applyPatch_key (r : Review) (p : ReviewPatch) (now : Nat) :
    (applyPatch r p now).userId = r.userId ∧ (applyPatch r p now).movieId = r.movieId :=
  ⟨rfl, rfl⟩

/-- The in-place rewrite done by `reviewRepository.update` never changes
any row's (userId, movieId) key. -/
theorem update_row_key (id : String) (p : ReviewPatch) (now : Nat) (x : Review) :
    (if x.id = id then applyPatch x p now else x).userId = x.userId ∧
    (if x.id = id then applyPatch x p now else x).movieId = x.movieId := by
  by_cases h : x.id = id <;> simp [h, applyPatch]

/-- Pair uniqueness survives a storage-level update. -/
theorem update_preserves_pairUnique (db : Db) (id : String) (p : ReviewPatch) (now : Nat)
    (hu : PairUnique db.reviews) :
    PairUnique (reviewRepository.update db id p now).reviews := by
  unfold PairUnique reviewRepository.update at *
  refine List.Pairwise.map _ ?_ hu
  intro a b hab hsame
  apply hab
  rcases hsame with ⟨h1, h2⟩
  rw [(update_row_key id p now a).1, (update_row_key id p now b).1] at h1
  rw [(update_row_key id p now a).2, (update_row_key id p now b).2] at h2
  exact ⟨h1, h2⟩

/-- Pair uniqueness survives a storage-level delete. -/
theorem delete_preserves_pairUnique (db : Db) (id : String)
    (hu : PairUnique db.reviews) :
    PairUnique (reviewRepository.del db id).reviews :=
  List.Pairwise.sublist (List.filter_sublist _) hu

/-- Claim C4: at most one Review per (userId, movieId) pair exists at any
time — the invariant is preserved by createReview, updateReview and
deleteReview — and a createReview call for a pair that already has a Review
fails with Validation and leaves the store unchanged; the storage-level
unique index independently rejects any insert of an already-present pair. -/
theorem review_pair_uniqueness (db : Db) :
    (PairUnique db.reviews →
      (∀ userId movieId rating content freshId now, PairUnique
        (reviewService.createReview db userId movieId rating content freshId now).2.reviews) ∧
      (∀ reviewId userId p now, PairUnique
        (reviewService.updateReview db reviewId userId p now).2.reviews) ∧
      (∀ reviewId userId, PairUnique
        (reviewService.deleteReview db reviewId userId).2.reviews)) ∧
    (∀ userId movieId rating content freshId now r, r ∈ db.reviews →
      r.userId = userId → r.movieId = movieId →
      isValidationFailure
        (reviewService.createReview db userId movieId rating content freshId now).1 = true ∧
      (reviewService.createReview db userId movieId rating content freshId now).2 = db) ∧
    (∀ r : Review, (∃ x ∈ db.reviews, samePair x r) →
      ∀ db', reviewRepository.create db r ≠ .ok db') := by
  refine ⟨fun hu => ⟨?_, ?_, ?_⟩, ?_, ?_⟩
  · intro userId movieId rating content freshId now
    unfold reviewService.createReview
    split
    · cases hfind : reviewRepository.findByUserAndMovie db userId movieId with
      | some x => simpa [hfind] using hu
      | none =>
        simp only [hfind]
        cases hc : reviewRepository.create db
            ⟨freshId, rating.num, content, userId, movieId, now, now⟩ with
        | ok db' =>
          simp only [hc]
          obtain ⟨hshape, hfreshPair⟩ := create_ok_shape db _ db' hc
          unfold PairUnique
          rw [hshape, List.pairwise_append]
          exact ⟨hu, by simp, fun a ha b hb => by
            simp only [List.mem_singleton] at hb
            subst hb
            exact hfreshPair a ha⟩
        | error e => simpa [hc] using hu
    · simpa using hu
  · intro reviewId userId p now
    unfold reviewService.updateReview
    split
    · simpa using hu
    · split
      · split
        · split
          · exact update_preserves_pairUnique db reviewId p now hu
          · simpa using hu
        · exact update_preserves_pairUnique db reviewId p now hu
      · simpa using hu
  · intro reviewId userId
    unfold reviewService.deleteReview
    split
    · simpa using hu
    · split
      · exact delete_preserves_pairUnique db reviewId hu
      · simpa using hu
  · intro userId movieId rating content freshId now r hr hru hrm
    by_cases hv : isValidRating rating
    · have hfind : (reviewRepository.findByUserAndMovie db userId movieId).isSome := by
        refine List.find?_isSome.mpr ⟨r, hr, ?_⟩
        simp [hru, hrm]
      cases hf : reviewRepository.findByUserAndMovie db userId movieId with
      | none => rw [hf] at hfind; simp at hfind
      | some x => constructor <;>
          simp [reviewService.createReview, hv, hf, isValidationFailure, ValidationError]
    · constructor <;>
        simp [reviewService.createReview, hv, isValidationFailure, ValidationError]
  · rintro r ⟨x, hx, hxpair⟩ db' h
    obtain ⟨-, hnone⟩ := create_ok_shape db r db' h
    exact hnone x hx hxpair

/-- Concrete instance of C4: alice already reviewed movie 550, so a second
createReview for the same pair fails with Validation and the database is
unchanged. -/
theorem review_pair_uniqueness_witness :
    aliceReview ∈ db1.reviews ∧
    isValidationFailure (reviewService.createReview db1 "user-1" 550 5 none "rev-9" 9000).1
      = true ∧
    (reviewService.createReview db1 "user-1" 550 5 none "rev-9" 9000).2 = db1 :=
  ⟨by decide,
    ((review_pair_uniqueness db1).2.1 "user-1" 550 5 none "rev-9" 9000 aliceReview
      (by decide) (by decide) (by decide)).1,
    ((review_pair_uniqueness db1).2.1 "user-1" 550 5 none "rev-9" 9000 aliceReview
      (by decide) (by decide) (by decide)).2⟩

/-- Counterexample to C5 as stated: it is impossible for any review whose
movieId is absent from the MetadataStore to be created — the foreign key
`movie_reviews_movie_id_fkey` of migration.sql forbids it. -/
theorem review_orphan_movie_counterexample :
    ¬ ∃ (db : Db) (r : Review) (db' : Db),
        movieRepository.findById db.movies r.movieId = none ∧
        reviewRepository.create db r = .ok db' := by
  rintro ⟨db, r, db', habs, h⟩
  unfold reviewRepository.create at h
  rw [habs] at h
  split at h
  · simp at h
  · simp at h

/-- Claim C5 (amended): a Review cannot reference a movieId with no
corresponding local Movie row — for every movieId absent from the
MetadataStore, creating a Review with that movieId fails with a
foreign-key violation. -/
theorem review_orphan_movie_rejected (db : Db) (r : Review)
    (habs : movieRepository.findById db.movies r.movieId = none) :
    ∃ constraintName,
      reviewRepository.create db r = .error (.foreignKeyViolation constraintName) := by
  unfold reviewRepository.create
  rw [habs]
  split
  · exact ⟨"movie_reviews_user_id_fkey", rfl⟩
  · refine ⟨"movie_reviews_movie_id_fkey", ?_⟩
    simp

/-- A review referencing movie 777, which no store below contains. -/
def orphanReview : Review := ⟨"rev-7", 7, none, "user-1", 777, 3000, 3000⟩

/-- Concrete instance of the amended C5: inserting a review of the locally
unknown movie 777 fails with a foreign-key violation. -/
theorem review_orphan_movie_rejected_witness :
    movieRepository.findById dbNoMovies.movies orphanReview.movieId = none ∧
    ∃ constraintName, reviewRepository.create dbNoMovies orphanReview =
      .error (.foreignKeyViolation constraintName) :=
  ⟨by decide, review_orphan_movie_rejected dbNoMovies orphanReview (by decide)⟩

/-- Claim C8: `getMovieReviews(movieId, page, pageSize)` returns the
`(page−1)·pageSize`-th through `page·pageSize`-th entries of the movie's
reviews ordered newest-first (1-based pages, defaults page=1, pageSize=20),
and an `averageRating` equal to the arithmetic mean of `rating` over ALL of
the movie's reviews — independent of the requested page — or `none` when
the movie has zero reviews. -/
theorem getMovieReviews_pagination_and_average (db : Db) (movieId page pageSize : Nat) :
    (reviewService.getMovieReviews db movieId page pageSize).reviews =
      ((reviewRepository.sortedReviewsOfMovie db movieId).drop
        ((page - 1) * pageSize)).take pageSize ∧
    (reviewRepository.sortedReviewsOfMovie db movieId).Sorted reviewRepository.newestFirst ∧
    (reviewRepository.sortedReviewsOfMovie db movieId).Perm
      (reviewRepository.reviewsOfMovie db movieId) ∧
    (∀ r ∈ (reviewService.getMovieReviews db movieId page pageSize).reviews,
      r.movieId = movieId) ∧
    (reviewService.getMovieReviews db movieId page pageSize).averageRating =
      (if reviewRepository.reviewsOfMovie db movieId = [] then none
        else some ((((reviewRepository.reviewsOfMovie db movieId).map
            (fun r => (r.rating : Rat))).sum) /
          ((reviewRepository.reviewsOfMovie db movieId).length : Rat))) ∧
    reviewService.getMovieReviewsDefault db movieId =
      reviewService.getMovieReviews db movieId 1 20 := by
  refine ⟨rfl,
    List.sorted_insertionSort reviewRepository.newestFirst _,
    List.perm_insertionSort reviewRepository.newestFirst _, ?_, ?_, rfl⟩
  · intro r hr
    have h1 : r ∈ reviewRepository.sortedReviewsOfMovie db movieId :=
      List.mem_of_mem_drop (List.mem_of_mem_take hr)
    have h2 : r ∈ reviewRepository.reviewsOfMovie db movieId :=
      (List.perm_insertionSort reviewRepository.newestFirst _).mem_iff.mp h1
    have := List.mem_filter.mp h2
    simpa using this.2
  · by_cases h : reviewRepository.reviewsOfMovie db movieId = [] <;>
      simp [reviewService.getMovieReviews, reviewRepository.averageRating, h]

/-- Concrete instance of C8: on a one-review database the default call
returns the single page and the movie-wide average. -/
theorem getMovieReviews_pagination_and_average_witness :
    (reviewService.getMovieReviews db1 550 1 20).reviews =
      ((reviewRepository.sortedReviewsOfMovie db1 550).drop ((1 - 1) * 20)).take 20 ∧
    reviewService.getMovieReviewsDefault db1 550 =
      reviewService.getMovieReviews db1 550 1 20 :=
  ⟨(getMovieReviews_pagination_and_average db1 550 1 20).1,
    (getMovieReviews_pagination_and_average db1 550 1 20).2.2.2.2.2⟩

/-- Claim C10: the persistence layer provides no backstop for the
rating-range rule — a storage-level insert whose foreign keys resolve and
whose id and (userId, movieId) pair are new succeeds for EVERY integer
rating, in particular for ratings outside [1,10]. -/
theorem store_create_ignores_rating (db : Db) (r : Review)
    (huser : (db.users.find? (fun u => decide (u.id = r.userId))).isSome)
    (hmovie : (movieRepository.findById db.movies r.movieId).isSome)
    (hid : db.reviews.any (fun x => decide (x.id = r.id)) = false)
    (hpair : db.reviews.any
      (fun x => decide (x.userId = r.userId) && decide (x.movieId = r.movieId)) = false) :
    reviewRepository.create db r = .ok { db with reviews := db.reviews ++ [r] } := by
  obtain ⟨u, hu⟩ := Option.isSome_iff_exists.mp huser
  obtain ⟨m, hm⟩ := Option.isSome_iff_exists.mp hmovie
  unfold reviewRepository.create
  rw [hu, hm, hid, hpair]
  simp

/-- A review with the out-of-range rating 0, referencing stored rows. -/
def ratingZeroReview : Review := ⟨"rev-3", 0, none, "user-2", 550, 4000, 4000⟩

/-- Concrete instance of C10: the insert of a rating-0 review succeeds and
persists the row. -/
theorem store_create_ignores_rating_witness :
    (db1.users.find? (fun u => decide (u.id = ratingZeroReview.userId))).isSome ∧
    reviewRepository.create db1 ratingZeroReview =
      .ok { db1 with reviews := db1.reviews ++ [ratingZeroReview] } :=
  ⟨by decide,
    store_create_ignores_rating db1 ratingZeroReview
      (by decide) (by decide) (by decide) (by decide)⟩

end MovieApp
